import Mathlib

/-
  Verification development for the demo-flight lookup front-end.

  The repository consists of two JavaScript files:
    - src/unnamed/part_000        : the full client (primary aircraft lookup,
                                    section rendering, contacts directory lookup)
    - src/static/real_app.js      : an earlier variant without the contacts
                                    lookup and with a relative request base URL.

  We shallowly embed the dynamically-typed JavaScript values, the payload
  schema consumed by the rendering code, the pure rendering helpers
  (kv, pill, formatAgo, renderContactsGroup) and the submit handler as a
  pure function from (prior DOM state, input value, clock, fetch outcomes)
  to (new DOM state, issued network calls, console log).
-/

/-- JS runtime value as it occurs in the payloads consumed by this client:
absent property (`undefined`), `null`, string, integral number, boolean. -/
inductive JSVal where
  | undefined
  | null
  | str (s : String)
  | num (n : Int)
  | bool (b : Bool)
deriving DecidableEq

/-- JS truthiness: `undefined`, `null`, `""`, `0`, `false` are falsy. -/
def jsTruthy : JSVal → Bool
  | .undefined => false
  | .null => false
  | .str s => s != ""
  | .num n => n != 0
  | .bool b => b

/-- JS string coercion as performed by template-literal interpolation. -/
def jsDisplay : JSVal → String
  | .undefined => "undefined"
  | .null => "null"
  | .str s => s
  | .num n => toString n
  | .bool b => if b then "true" else "false"

/-- The JS `a || b` operator: `a` when truthy, otherwise `b`. -/
def jsOr (a b : JSVal) : JSVal :=
  if jsTruthy a then a else b

/-- The `c1 || c2 || ... || '—'` idiom used throughout the rendering code
(`kv`'s `value || '—'`, `ad.registration || data.tail_number`,
`c.corporate_phone || c.phone`, ...), as an n-ary chain ending in the
em-dash sentinel. -/
def orChain (cs : List JSVal) : JSVal :=
  cs.foldr jsOr (.str "—")

/-- The `someString || '—'` idiom applied to an already-built string
(e.g. `[..].filter(Boolean).join(' · ') || '—'`). -/
def orDash (s : String) : String :=
  if s == "" then "—" else s

/-- The `[a, b].filter(Boolean).join(sep)` idiom. -/
def joinTruthy (sep : String) (vs : List JSVal) : String :=
  String.intercalate sep ((vs.filter jsTruthy).map jsDisplay)

/-- Model of the browser builtin `encodeURIComponent`; both variants call the
same builtin and no claim depends on the escaping itself, so it is modelled
as the identity embedding of the query into the URL. -/
def encodeURIComponent (s : String) : String := s

/-- JS `String.prototype.trim`: strip whitespace from both ends (structural
model over the character list, so that it evaluates inside the kernel). -/
def jsTrim (s : String) : String :=
  String.mk (((s.data.dropWhile Char.isWhitespace).reverse.dropWhile Char.isWhitespace).reverse)

/- ---------------------------------------------------------------------
   Payload schema (RawPrimaryPayload / RawContactsPayload), as consumed
   by the rendering code.  Every field may be absent: absent sub-records
   are `none` (the code substitutes `|| {}`), absent scalar fields are
   `JSVal.undefined`.
--------------------------------------------------------------------- -/

/-- The `data.fr24` sub-record. -/
structure Fr24F where
  model : JSVal := .undefined
  airline : JSVal := .undefined
  operator : JSVal := .undefined
  type_code : JSVal := .undefined
  airline_code : JSVal := .undefined
  operator_code : JSVal := .undefined
  mode_s : JSVal := .undefined
  serial_msn : JSVal := .undefined
  source_url : JSVal := .undefined

/-- The `data.registry` sub-record. -/
structure RegistryF where
  owner : JSVal := .undefined
  status : JSVal := .undefined
  airworthiness_class : JSVal := .undefined
  certificate_issue_date : JSVal := .undefined
  airworthiness_date : JSVal := .undefined
  expiration : JSVal := .undefined
  engine : JSVal := .undefined
  serial_number : JSVal := .undefined
  model_year : JSVal := .undefined
  seats : JSVal := .undefined
  engines_count : JSVal := .undefined
  fractional_owner : JSVal := .undefined
  source_url : JSVal := .undefined

/-- The `data.adsb` sub-record.  `pos_epoch` is the numeric epoch handed to
`formatAgo`. -/
structure AdsbF where
  callsign : JSVal := .undefined
  hex : JSVal := .undefined
  registration : JSVal := .undefined
  icao_type : JSVal := .undefined
  type_full : JSVal := .undefined
  type_desc : JSVal := .undefined
  category : JSVal := .undefined
  pos_epoch : Option Int := none
  last_seen : JSVal := .undefined
  baro_altitude : JSVal := .undefined
  groundspeed_kt : JSVal := .undefined
  ground_track : JSVal := .undefined
  true_heading : JSVal := .undefined
  mag_heading : JSVal := .undefined
  squawk : JSVal := .undefined
  position : JSVal := .undefined
  source : JSVal := .undefined
  message_rate : JSVal := .undefined

/-- The `data.links` sub-record (accessed with optional chaining). -/
structure LinksF where
  adsb_globe_url : JSVal := .undefined

/-- The `data.likely_base` sub-record; `confidence` is rendered only when
it is a number (`typeof base.confidence === 'number'`). -/
structure BaseF where
  code : JSVal := .undefined
  confidence : Option ℚ := none

/-- One entry of `data.overnights_top`. -/
structure OvernightF where
  airport : JSVal := .undefined
  overnights : JSVal := .undefined
  avg_ground_hours : JSVal := .undefined

/-- The `data.chase` sub-record. -/
structure ChaseF where
  score : JSVal := .undefined
  reasons : Option (List String) := none

/-- The `data.last_spotted` sub-record; `epoch` is handed to `formatAgo`. -/
structure LastSpottedF where
  epoch : Option Int := none
  place_code : JSVal := .undefined
  place_city : JSVal := .undefined

/-- One entry of the `top_airports_7d/30d/90d` lists. -/
structure AirportCountF where
  code : JSVal := .undefined
  count : JSVal := .undefined

/-- One entry of `data.recent_flights`. -/
structure FlightF where
  date_local : JSVal := .undefined
  from_airport : JSVal := .undefined
  to_airport : JSVal := .undefined
  callsign : JSVal := .undefined
  flight_time : JSVal := .undefined

/-- RawPrimaryPayload: the JSON object returned by `/api/aircraft`. -/
structure Primary where
  tail_number : JSVal := .undefined
  fr24 : Option Fr24F := none
  registry : Option RegistryF := none
  adsb : Option AdsbF := none
  links : Option LinksF := none
  buyer_roles_hint : Option (List JSVal) := none
  inferred_operation : JSVal := .undefined
  is_fractional : JSVal := .undefined
  likely_base : Option BaseF := none
  overnights_top : Option (List OvernightF) := none
  chase : Option ChaseF := none
  last_spotted : Option LastSpottedF := none
  top_airports_7d : Option (List AirportCountF) := none
  top_airports_30d : Option (List AirportCountF) := none
  top_airports_90d : Option (List AirportCountF) := none
  recent_flights : Option (List FlightF) := none

/-- One contact entry of the contacts payload.  The phone number is sourced
from either of two legacy field names. -/
structure ContactF where
  name : JSVal := .undefined
  title : JSVal := .undefined
  email : JSVal := .undefined
  corporate_phone : JSVal := .undefined
  phone : JSVal := .undefined
  company : JSVal := .undefined

/-- The `cdata.contacts` sub-record. -/
structure ContactsGroups where
  airline : JSVal := .undefined
  dom : Option (List ContactF) := none
  occ : Option (List ContactF) := none
  other : Option (List ContactF) := none

/-- RawContactsPayload: the JSON object returned by `/api/contacts-by-tail`. -/
structure ContactsPayload where
  contacts : Option ContactsGroups := none
  airline : JSVal := .undefined

/-- The clamped elapsed-seconds computation of `formatAgo`:
`Math.max(0, Math.floor((Date.now() - epoch*1000) / 1000))`.
`nowMs` is the millisecond clock reading, `e` the epoch in seconds. -/
def elapsedSecondsClamped (nowMs e : Int) : Int :=
  max 0 (Int.fdiv (nowMs - e * 1000) 1000)

/- ---------------------------------------------------------------------
   Fetch outcomes and the console/network effect trace of one submission.
--------------------------------------------------------------------- -/

/-- The underlying cause of a failed fetch, as thrown/caught by the handler:
`http s` is the `new Error("HTTP " + status)` thrown on a non-ok response,
`transport` a network error thrown by `fetch` itself, `parse` an error
thrown by `res.json()` on a malformed payload. -/
inductive Cause where
  | http (status : Nat)
  | transport
  | parse
deriving DecidableEq

/-- One `console.error` entry emitted by the submit handler. -/
inductive LogEntry where
  | primaryError (c : Cause)
  | contactsError (c : Cause)
deriving DecidableEq

/-- Outcome of the primary `/api/aircraft` fetch. -/
inductive PrimaryResult where
  | netError
  | badStatus (status : Nat)
  | parseError
  | ok (data : Primary)

/-- Outcome of the secondary `/api/contacts-by-tail` fetch. -/
inductive ContactsResult where
  | netError
  | badStatus (status : Nat)
  | parseError
  | ok (data : ContactsPayload)

/-- The cause logged for a failed primary fetch (`none` when it succeeded). -/
def PrimaryResult.failCause : PrimaryResult → Option Cause
  | .netError => some .transport
  | .badStatus s => some (.http s)
  | .parseError => some .parse
  | .ok _ => none

/-- The degradation message the handler writes into the contacts block for a
failed secondary fetch (`none` when it succeeded): a non-ok status takes the
`else` branch, a transport or parse error takes the `catch` branch. -/
def ContactsResult.degradedMsg : ContactsResult → Option String
  | .netError => some "Contact lookup failed."
  | .badStatus _ => some "Contact lookup not available for this tail."
  | .parseError => some "Contact lookup failed."
  | .ok _ => none

namespace Part000

/-- `const API_BASE = "https://demo-flight.onrender.com"`. -/
def API_BASE : String := "https://demo-flight.onrender.com"

/-- URL of the primary fetch in part_000. -/
def aircraftUrl (n : String) : String :=
  API_BASE ++ "/api/aircraft?n=" ++ encodeURIComponent n ++ "&use_adsb=true"

/-- URL of the contacts fetch in part_000. -/
def contactsUrl (n : String) : String :=
  API_BASE ++ "/api/contacts-by-tail?n=" ++ encodeURIComponent n

/-- The `kv(label, value)` helper: one label/value row, with the value
replaced by the em-dash sentinel via `value || '—'`. -/
def kv (label : String) (value : JSVal) : String :=
  "<div class=\"mb-2\"><div class=\"label\">" ++ label ++
    "</div><div class=\"value\">" ++ jsDisplay (jsOr value (.str "—")) ++
    "</div></div>"

/-- The `pill(code, count)` helper for airport-count badges. -/
def pill (code count : JSVal) : String :=
  "<span class=\"badge rounded-pill text-bg-primary me-2 badge-airport\">" ++
    jsDisplay (jsOr code (.str "—")) ++
    " <span class=\"ms-1 text-bg-dark badge\">" ++ jsDisplay count ++
    "</span></span>"

/-- The `formatAgo(epoch)` helper.  `nowMs` is the injected `Date.now()`
reading.  A falsy epoch (absent or `0`) yields the sentinel; otherwise the
clamped elapsed seconds are bucketed into days / hours / minutes / seconds
with an `s` appended for a count greater than one. -/
def formatAgo (nowMs : Int) (epoch : Option Int) : String :=
  match epoch with
  | none => "—"
  | some e =>
    if e = 0 then "—"
    else
      let s := (elapsedSecondsClamped nowMs e).toNat
      let m := s / 60
      let h := m / 60
      let d := h / 24
      if d ≥ 1 then toString d ++ " day" ++ (if d > 1 then "s" else "") ++ " ago"
      else if h ≥ 1 then toString h ++ " hr" ++ (if h > 1 then "s" else "") ++ " ago"
      else if m ≥ 1 then toString m ++ " min" ++ (if m > 1 then "s" else "") ++ " ago"
      else toString s ++ " sec" ++ (if s > 1 then "s" else "") ++ " ago"

/-- The fractional-owner expression of the Registry card:
`rg.fractional_owner === true ? 'YES' : (rg.fractional_owner === false ? 'NO' : '—')`. -/
def fracLabel (v : JSVal) : String :=
  if v = .bool true then "YES" else if v = .bool false then "NO" else "—"

/-- The FR24 card (`fr24Card.innerHTML`). -/
def renderFr24Card (data : Primary) : String :=
  let fr := data.fr24.getD {}
  String.join [
    kv "Tail number" (.str ("<strong>" ++ jsDisplay data.tail_number ++ "</strong>")),
    kv "Aircraft" fr.model,
    kv "Airline" fr.airline,
    kv "Operator" fr.operator,
    kv "Type Code" fr.type_code,
    kv "Code (Airline)" fr.airline_code,
    kv "Code (Operator)" fr.operator_code,
    kv "Mode S (ICAO hex)" (jsOr fr.mode_s (.str "—")),
    kv "Serial Number (MSN)" (jsOr fr.serial_msn (.str "—"))
  ]

/-- The FR24 source link (`fr24Link.innerHTML`). -/
def renderFr24Link (data : Primary) : String :=
  let fr := data.fr24.getD {}
  if jsTruthy fr.source_url then
    "Source: <a href=\"" ++ jsDisplay fr.source_url ++
      "\" target=\"_blank\" rel=\"noopener\">FR24</a>"
  else ""

/-- The Registry card (`regCard.innerHTML`). -/
def renderRegCard (data : Primary) : String :=
  let rg := data.registry.getD {}
  String.join [
    kv "Owner" rg.owner,
    kv "Status" rg.status,
    kv "Airworthiness Class" rg.airworthiness_class,
    kv "Certificate Issue Date" rg.certificate_issue_date,
    kv "Airworthiness Date" rg.airworthiness_date,
    kv "Expiration" rg.expiration,
    kv "Engine" rg.engine,
    kv "Serial Number" rg.serial_number,
    kv "Model Year" rg.model_year,
    kv "Seats" rg.seats,
    kv "Engines" rg.engines_count,
    kv "Fractional Owner" (.str (fracLabel rg.fractional_owner))
  ]

/-- The Registry source link (`regLink.innerHTML`). -/
def renderRegLink (data : Primary) : String :=
  let rg := data.registry.getD {}
  if jsTruthy rg.source_url then
    "Source: <a href=\"" ++ jsDisplay rg.source_url ++
      "\" target=\"_blank\" rel=\"noopener\">FAA / Registry</a>"
  else ""

/-- The ADS-B card (`adsbCard.innerHTML`). -/
def renderAdsbCard (nowMs : Int) (data : Primary) : String :=
  let ad := data.adsb.getD {}
  String.join [
    kv "Callsign" ad.callsign,
    kv "ICAO hex" ad.hex,
    kv "Registration" (jsOr ad.registration data.tail_number),
    kv "Type (ICAO / Full)" (.str (orDash (joinTruthy " · " [ad.icao_type, ad.type_full]))),
    kv "Type Desc / Category" (.str (orDash (joinTruthy " · " [ad.type_desc, ad.category]))),
    kv "Last seen (ADS-B)"
      (if (ad.pos_epoch.getD 0) != 0 then
        .str (formatAgo nowMs ad.pos_epoch ++ " (epoch)")
      else jsOr ad.last_seen (.str "—")),
    kv "On-ground / Altitude" (jsOr ad.baro_altitude (.str "—")),
    kv "Groundspeed (kt) / Track" (.str (orDash (joinTruthy " / " [ad.groundspeed_kt, ad.ground_track]))),
    kv "Heading (true/mag)" (.str (orDash (joinTruthy " / " [ad.true_heading, ad.mag_heading]))),
    kv "Squawk" ad.squawk,
    kv "Position (WGS84)" ad.position,
    kv "Source / Msg rate" (.str (orDash (joinTruthy " · " [ad.source, ad.message_rate])))
  ]

/-- The ADS-B source link (`adsbLink.innerHTML`, guarded by
`data.links?.adsb_globe_url`). -/
def renderAdsbLink (data : Primary) : String :=
  let g := (data.links.map LinksF.adsb_globe_url).getD .undefined
  if jsTruthy g then
    "Source: <a href=\"" ++ jsDisplay g ++
      "\" target=\"_blank\" rel=\"noopener\">ADS-B Exchange (globe)</a>"
  else ""

/-- The Targeting card (`targetCard.innerHTML`). -/
def renderTargetCard (data : Primary) : String :=
  let roles := String.join ((data.buyer_roles_hint.getD []).map fun r =>
    "<span class=\"badge text-bg-secondary me-2\">" ++ jsDisplay r ++ "</span>")
  let base := data.likely_base.getD {}
  let baseConf := match base.confidence with
    | some q => " (conf " ++ toString ⌊q * 100 + 1/2⌋ ++ "%)"
    | none => ""
  let ovn := String.join ((data.overnights_top.getD []).map fun o =>
    "<span class=\"badge text-bg-primary me-2 badge-airport\">" ++
      jsDisplay (jsOr o.airport (.str "—")) ++
      " <span class=\"ms-1 text-bg-dark badge\">" ++ jsDisplay o.overnights ++
      " ovn · " ++ jsDisplay o.avg_ground_hours ++ "h avg</span></span>")
  let chase := data.chase.getD { score := .num 0, reasons := some [] }
  String.join [
    kv "Inferred Operation"
      (.str (jsDisplay (jsOr data.inferred_operation (.str "—")) ++
        (if jsTruthy data.is_fractional then " (fractional)" else ""))),
    kv "Who to contact" (.str (orDash roles)),
    kv "Likely operating base"
      (if jsTruthy base.code then .str (jsDisplay base.code ++ baseConf) else .str "—"),
    kv "Overnights / avg ground time" (.str (orDash ovn)),
    kv "Chase score"
      (.str (jsDisplay chase.score ++ " / 5 — " ++
        String.intercalate ", " (chase.reasons.getD [])))
  ]

/-- The Activity card (`activityCard.innerHTML`). -/
def renderActivityCard (nowMs : Int) (data : Primary) : String :=
  let last := data.last_spotted.getD {}
  let placeLabel :=
    if jsTruthy last.place_code then
      (if jsTruthy last.place_city then
        jsDisplay last.place_code ++ " (" ++ jsDisplay last.place_city ++ ")"
      else jsDisplay last.place_code)
    else "—"
  let top7 := String.join ((data.top_airports_7d.getD []).map fun a => pill a.code a.count)
  let top30 := String.join ((data.top_airports_30d.getD []).map fun a => pill a.code a.count)
  let top90 := String.join ((data.top_airports_90d.getD []).map fun a => pill a.code a.count)
  String.join [
    kv "Last spotted (overall)"
      (if (last.epoch.getD 0) != 0 then
        .str (formatAgo nowMs last.epoch ++ " at " ++ placeLabel)
      else .str "—"),
    kv "Top airports — last 7 days" (.str (orDash top7)),
    kv "Top airports — last 30 days" (.str (orDash top30)),
    kv "Top airports — last 90 days" (.str (orDash top90))
  ]

/-- One `<tr>` of the flights table. -/
def renderFlightRow (f : FlightF) : String :=
  "\n        <td>" ++ jsDisplay (jsOr f.date_local (.str "—")) ++
    "</td>\n        <td><span class=\"badge badge-airport text-bg-dark\">" ++
    jsDisplay (jsOr f.from_airport (.str "—")) ++
    "</span></td>\n        <td><span class=\"badge badge-airport text-bg-dark\">" ++
    jsDisplay (jsOr f.to_airport (.str "—")) ++
    "</span></td>\n        <td>" ++ jsDisplay (jsOr f.callsign (.str "—")) ++
    "</td>\n        <td>" ++ jsDisplay (jsOr f.flight_time (.str "—")) ++
    "</td>\n      "

/-- The `renderContactsGroup(container, label, list)` helper: an absent or
empty list renders the explicit "No contacts found" row; otherwise each
contact renders its name and the available pieces joined by a middle dot. -/
def renderContactsGroup (label : String) (list : Option (List ContactF)) : String :=
  match list with
  | none => kv label (.str "No contacts found")
  | some [] => kv label (.str "No contacts found")
  | some l =>
    "<div class=\"mb-1 fw-semibold\">" ++ label ++ "</div>" ++
    String.join (l.map fun c =>
      let name := jsDisplay (jsOr c.name (.str "—"))
      let pieces :=
        (if jsTruthy c.title then [jsDisplay c.title] else []) ++
        (if jsTruthy c.email then
          ["<a href=\"mailto:" ++ jsDisplay c.email ++ "\">" ++ jsDisplay c.email ++ "</a>"]
        else []) ++
        (if jsTruthy (jsOr c.corporate_phone c.phone) then
          [jsDisplay (jsOr c.corporate_phone c.phone)]
        else []) ++
        (if jsTruthy c.company then [jsDisplay c.company] else [])
      let details := orDash (String.intercalate " · " pieces)
      "<div class=\"mb-1\"><span class=\"value\">" ++ name ++
        "</span><span class=\"ms-1 muted\">— " ++ details ++ "</span></div>")

/-- The DOM regions written by the part_000 submit handler.  `error = none`
models the hidden error box, `flightsRows` the `<tr>` children of the
flights table, the four contacts fields the contacts blocks. -/
structure Dom where
  error : Option String
  resultsVisible : Bool
  spinner : Bool
  fr24Card : String
  regCard : String
  adsbCard : String
  targetCard : String
  activityCard : String
  fr24Link : String
  regLink : String
  adsbLink : String
  flightsRows : List String
  contactsAirline : String
  domContacts : String
  occContacts : String
  otherContacts : String
deriving DecidableEq

/-- The reset block at the top of the submit handler (`setError('')`, hiding
the results region, clearing every card, link, the flights table and the
contacts blocks, then `showSpinner(true)`).  Every region is overwritten,
so the result does not depend on the prior state. -/
def resetDom (_prior : Dom) : Dom :=
  { error := none
    resultsVisible := false
    spinner := true
    fr24Card := ""
    regCard := ""
    adsbCard := ""
    targetCard := ""
    activityCard := ""
    fr24Link := ""
    regLink := ""
    adsbLink := ""
    flightsRows := []
    contactsAirline := ""
    domContacts := ""
    occContacts := ""
    otherContacts := "" }

/-- The user-facing message of the outer catch. -/
def lookupFailedMsg : String :=
  "Lookup failed. Try again in a moment or verify the N-number."

/-- Result of one submission: the new DOM state, the network calls issued
(in order) and the `console.error` log. -/
structure SubmitOut where
  dom : Dom
  calls : List String
  log : List LogEntry
deriving DecidableEq

/-- The part_000 submit handler as a pure function of the prior DOM state,
the raw input value, the clock reading and the two fetch outcomes.  The
secondary outcome is only consulted when the primary fetch succeeds. -/
def submit (prior : Dom) (inputValue : String) (nowMs : Int)
    (pri : PrimaryResult) (sec : ContactsResult) : SubmitOut :=
  let d0 := resetDom prior
  let n := jsTrim inputValue
  if n = "" then
    { dom := { d0 with error := some "Please enter an N-number.", spinner := false }
      calls := []
      log := [] }
  else
    match pri with
    | .netError =>
      { dom := { d0 with error := some lookupFailedMsg, spinner := false }
        calls := [aircraftUrl n]
        log := [.primaryError .transport] }
    | .badStatus s =>
      { dom := { d0 with error := some lookupFailedMsg, spinner := false }
        calls := [aircraftUrl n]
        log := [.primaryError (.http s)] }
    | .parseError =>
      { dom := { d0 with error := some lookupFailedMsg, spinner := false }
        calls := [aircraftUrl n]
        log := [.primaryError .parse] }
    | .ok data =>
      let d1 := { d0 with
        fr24Card := renderFr24Card data
        fr24Link := renderFr24Link data
        regCard := renderRegCard data
        regLink := renderRegLink data
        adsbCard := renderAdsbCard nowMs data
        adsbLink := renderAdsbLink data
        targetCard := renderTargetCard data
        activityCard := renderActivityCard nowMs data
        flightsRows := (data.recent_flights.getD []).map renderFlightRow }
      match sec with
      | .ok cdata =>
        let c := cdata.contacts.getD {}
        let d2 := { d1 with
          contactsAirline :=
            if jsTruthy (jsOr c.airline cdata.airline) then
              "Airline: <strong>" ++ jsDisplay (jsOr c.airline cdata.airline) ++ "</strong>"
            else d1.contactsAirline
          domContacts := renderContactsGroup "Director of Maintenance / Maintenance" c.dom
          occContacts := renderContactsGroup "OCC / Dispatch" c.occ
          otherContacts := renderContactsGroup "Other relevant contacts" c.other }
        { dom := { d2 with resultsVisible := true, spinner := false }
          calls := [aircraftUrl n, contactsUrl n]
          log := [] }
      | .badStatus _ =>
        { dom := { d1 with
            domContacts := kv "Contacts" (.str "Contact lookup not available for this tail.")
            resultsVisible := true
            spinner := false }
          calls := [aircraftUrl n, contactsUrl n]
          log := [] }
      | .netError =>
        { dom := { d1 with
            domContacts := kv "Contacts" (.str "Contact lookup failed.")
            resultsVisible := true
            spinner := false }
          calls := [aircraftUrl n, contactsUrl n]
          log := [.contactsError .transport] }
      | .parseError =>
        { dom := { d1 with
            domContacts := kv "Contacts" (.str "Contact lookup failed.")
            resultsVisible := true
            spinner := false }
          calls := [aircraftUrl n, contactsUrl n]
          log := [.contactsError .parse] }

end Part000

namespace RealApp

/-
  The earlier variant src/static/real_app.js: no `API_BASE` (requests are
  relative), no contacts section.  Its helpers and card renderers are
  transcribed separately from that file so that their agreement with the
  part_000 renderers is a theorem, not a definition.
-/

/-- URL of the primary fetch in real_app.js (relative, no base origin). -/
def aircraftUrl (n : String) : String :=
  "/api/aircraft?n=" ++ encodeURIComponent n ++ "&use_adsb=true"

/-- The `kv(label, value)` helper of real_app.js. -/
def kv (label : String) (value : JSVal) : String :=
  "<div class=\"mb-2\"><div class=\"label\">" ++ label ++
    "</div><div class=\"value\">" ++ jsDisplay (jsOr value (.str "—")) ++
    "</div></div>"

/-- The `pill(code, count)` helper of real_app.js. -/
def pill (code count : JSVal) : String :=
  "<span class=\"badge rounded-pill text-bg-primary me-2 badge-airport\">" ++
    jsDisplay (jsOr code (.str "—")) ++
    " <span class=\"ms-1 text-bg-dark badge\">" ++ jsDisplay count ++
    "</span></span>"

/-- The `formatAgo(epoch)` helper of real_app.js. -/
def formatAgo (nowMs : Int) (epoch : Option Int) : String :=
  match epoch with
  | none => "—"
  | some e =>
    if e = 0 then "—"
    else
      let s := (elapsedSecondsClamped nowMs e).toNat
      let m := s / 60
      let h := m / 60
      let d := h / 24
      if d ≥ 1 then toString d ++ " day" ++ (if d > 1 then "s" else "") ++ " ago"
      else if h ≥ 1 then toString h ++ " hr" ++ (if h > 1 then "s" else "") ++ " ago"
      else if m ≥ 1 then toString m ++ " min" ++ (if m > 1 then "s" else "") ++ " ago"
      else toString s ++ " sec" ++ (if s > 1 then "s" else "") ++ " ago"

/-- The fractional-owner expression of the real_app.js Registry card. -/
def fracLabel (v : JSVal) : String :=
  if v = .bool true then "YES" else if v = .bool false then "NO" else "—"

/-- The FR24 card of real_app.js. -/
def renderFr24Card (data : Primary) : String :=
  let fr := data.fr24.getD {}
  String.join [
    kv "Tail number" (.str ("<strong>" ++ jsDisplay data.tail_number ++ "</strong>")),
    kv "Aircraft" fr.model,
    kv "Airline" fr.airline,
    kv "Operator" fr.operator,
    kv "Type Code" fr.type_code,
    kv "Code (Airline)" fr.airline_code,
    kv "Code (Operator)" fr.operator_code,
    kv "Mode S (ICAO hex)" (jsOr fr.mode_s (.str "—")),
    kv "Serial Number (MSN)" (jsOr fr.serial_msn (.str "—"))
  ]

/-- The FR24 source link of real_app.js. -/
def renderFr24Link (data : Primary) : String :=
  let fr := data.fr24.getD {}
  if jsTruthy fr.source_url then
    "Source: <a href=\"" ++ jsDisplay fr.source_url ++
      "\" target=\"_blank\" rel=\"noopener\">FR24</a>"
  else ""

/-- The Registry card of real_app.js. -/
def renderRegCard (data : Primary) : String :=
  let rg := data.registry.getD {}
  String.join [
    kv "Owner" rg.owner,
    kv "Status" rg.status,
    kv "Airworthiness Class" rg.airworthiness_class,
    kv "Certificate Issue Date" rg.certificate_issue_date,
    kv "Airworthiness Date" rg.airworthiness_date,
    kv "Expiration" rg.expiration,
    kv "Engine" rg.engine,
    kv "Serial Number" rg.serial_number,
    kv "Model Year" rg.model_year,
    kv "Seats" rg.seats,
    kv "Engines" rg.engines_count,
    kv "Fractional Owner" (.str (fracLabel rg.fractional_owner))
  ]

/-- The Registry source link of real_app.js. -/
def renderRegLink (data : Primary) : String :=
  let rg := data.registry.getD {}
  if jsTruthy rg.source_url then
    "Source: <a href=\"" ++ jsDisplay rg.source_url ++
      "\" target=\"_blank\" rel=\"noopener\">FAA / Registry</a>"
  else ""

/-- The ADS-B card of real_app.js. -/
def renderAdsbCard (nowMs : Int) (data : Primary) : String :=
  let ad := data.adsb.getD {}
  String.join [
    kv "Callsign" ad.callsign,
    kv "ICAO hex" ad.hex,
    kv "Registration" (jsOr ad.registration data.tail_number),
    kv "Type (ICAO / Full)" (.str (orDash (joinTruthy " · " [ad.icao_type, ad.type_full]))),
    kv "Type Desc / Category" (.str (orDash (joinTruthy " · " [ad.type_desc, ad.category]))),
    kv "Last seen (ADS-B)"
      (if (ad.pos_epoch.getD 0) != 0 then
        .str (formatAgo nowMs ad.pos_epoch ++ " (epoch)")
      else jsOr ad.last_seen (.str "—")),
    kv "On-ground / Altitude" (jsOr ad.baro_altitude (.str "—")),
    kv "Groundspeed (kt) / Track" (.str (orDash (joinTruthy " / " [ad.groundspeed_kt, ad.ground_track]))),
    kv "Heading (true/mag)" (.str (orDash (joinTruthy " / " [ad.true_heading, ad.mag_heading]))),
    kv "Squawk" ad.squawk,
    kv "Position (WGS84)" ad.position,
    kv "Source / Msg rate" (.str (orDash (joinTruthy " · " [ad.source, ad.message_rate])))
  ]

/-- The ADS-B source link of real_app.js. -/
def renderAdsbLink (data : Primary) : String :=
  let g := (data.links.map LinksF.adsb_globe_url).getD .undefined
  if jsTruthy g then
    "Source: <a href=\"" ++ jsDisplay g ++
      "\" target=\"_blank\" rel=\"noopener\">ADS-B Exchange (globe)</a>"
  else ""

/-- The Targeting card of real_app.js. -/
def renderTargetCard (data : Primary) : String :=
  let roles := String.join ((data.buyer_roles_hint.getD []).map fun r =>
    "<span class=\"badge text-bg-secondary me-2\">" ++ jsDisplay r ++ "</span>")
  let base := data.likely_base.getD {}
  let baseConf := match base.confidence with
    | some q => " (conf " ++ toString ⌊q * 100 + 1/2⌋ ++ "%)"
    | none => ""
  let ovn := String.join ((data.overnights_top.getD []).map fun o =>
    "<span class=\"badge text-bg-primary me-2 badge-airport\">" ++
      jsDisplay (jsOr o.airport (.str "—")) ++
      " <span class=\"ms-1 text-bg-dark badge\">" ++ jsDisplay o.overnights ++
      " ovn · " ++ jsDisplay o.avg_ground_hours ++ "h avg</span></span>")
  let chase := data.chase.getD { score := .num 0, reasons := some [] }
  String.join [
    kv "Inferred Operation"
      (.str (jsDisplay (jsOr data.inferred_operation (.str "—")) ++
        (if jsTruthy data.is_fractional then " (fractional)" else ""))),
    kv "Who to contact" (.str (orDash roles)),
    kv "Likely operating base"
      (if jsTruthy base.code then .str (jsDisplay base.code ++ baseConf) else .str "—"),
    kv "Overnights / avg ground time" (.str (orDash ovn)),
    kv "Chase score"
      (.str (jsDisplay chase.score ++ " / 5 — " ++
        String.intercalate ", " (chase.reasons.getD [])))
  ]

/-- The Activity card of real_app.js. -/
def renderActivityCard (nowMs : Int) (data : Primary) : String :=
  let last := data.last_spotted.getD {}
  let placeLabel :=
    if jsTruthy last.place_code then
      (if jsTruthy last.place_city then
        jsDisplay last.place_code ++ " (" ++ jsDisplay last.place_city ++ ")"
      else jsDisplay last.place_code)
    else "—"
  let top7 := String.join ((data.top_airports_7d.getD []).map fun a => pill a.code a.count)
  let top30 := String.join ((data.top_airports_30d.getD []).map fun a => pill a.code a.count)
  let top90 := String.join ((data.top_airports_90d.getD []).map fun a => pill a.code a.count)
  String.join [
    kv "Last spotted (overall)"
      (if (last.epoch.getD 0) != 0 then
        .str (formatAgo nowMs last.epoch ++ " at " ++ placeLabel)
      else .str "—"),
    kv "Top airports — last 7 days" (.str (orDash top7)),
    kv "Top airports — last 30 days" (.str (orDash top30)),
    kv "Top airports — last 90 days" (.str (orDash top90))
  ]

/-- One `<tr>` of the real_app.js flights table. -/
def renderFlightRow (f : FlightF) : String :=
  "\n        <td>" ++ jsDisplay (jsOr f.date_local (.str "—")) ++
    "</td>\n        <td><span class=\"badge badge-airport text-bg-dark\">" ++
    jsDisplay (jsOr f.from_airport (.str "—")) ++
    "</span></td>\n        <td><span class=\"badge badge-airport text-bg-dark\">" ++
    jsDisplay (jsOr f.to_airport (.str "—")) ++
    "</span></td>\n        <td>" ++ jsDisplay (jsOr f.callsign (.str "—")) ++
    "</td>\n        <td>" ++ jsDisplay (jsOr f.flight_time (.str "—")) ++
    "</td>\n      "

end RealApp

/- ---------------------------------------------------------------------
   Spec-side definitions, written from the specification's words, to be
   compared with the code-side definitions above.
--------------------------------------------------------------------- -/

/-- Spec phrase "`{c}` unit(s) ago" with the `s` appended exactly when the
bucketed count is greater than one.  The unit label carries its leading
space (" day", " hr", " min", " sec"). -/
def agoPhrase (c : Nat) (unitLabel : String) : String :=
  toString c ++ unitLabel ++ (if c > 1 then "s" else "") ++ " ago"

/-- Time-relative formatter as the specification describes it: sentinel for
an absent or zero epoch, otherwise bucket the clamped elapsed seconds by
direct division into days (86400 s), hours (3600 s), minutes (60 s),
seconds, preferring the largest unit with count at least one. -/
def formatAgoSpec (nowMs : Int) (epoch : Option Int) : String :=
  match epoch with
  | none => "—"
  | some e =>
    if e = 0 then "—"
    else
      let s := (elapsedSecondsClamped nowMs e).toNat
      if s / 86400 ≥ 1 then agoPhrase (s / 86400) " day"
      else if s / 3600 ≥ 1 then agoPhrase (s / 3600) " hr"
      else if s / 60 ≥ 1 then agoPhrase (s / 60) " min"
      else agoPhrase s " sec"

/-- The four time buckets of the formatter. -/
inductive AgoUnit where
  | day
  | hr
  | min
  | sec
deriving DecidableEq

/-- The length of one unit in seconds. -/
def AgoUnit.seconds : AgoUnit → Nat
  | .day => 86400
  | .hr => 3600
  | .min => 60
  | .sec => 1

/-- The display label of one unit, with its leading space. -/
def AgoUnit.label : AgoUnit → String
  | .day => " day"
  | .hr => " hr"
  | .min => " min"
  | .sec => " sec"

/-- The bucket chosen by the formatter for `s` elapsed seconds, with its
count, using the same cascaded divisions as the code. -/
def agoBucket (s : Nat) : AgoUnit × Nat :=
  if s / 60 / 60 / 24 ≥ 1 then (.day, s / 60 / 60 / 24)
  else if s / 60 / 60 ≥ 1 then (.hr, s / 60 / 60)
  else if s / 60 ≥ 1 then (.min, s / 60)
  else (.sec, s)

/-- The duration in seconds that the formatted output denotes (the bucketed
count times the unit length).  Monotonicity of the formatter across bucket
boundaries is monotonicity of this denotation. -/
def agoRank (s : Nat) : Nat :=
  (agoBucket s).2 * AgoUnit.seconds (agoBucket s).1

/- ---------------------------------------------------------------------
   Concrete states and payloads used by witnesses and counterexamples.
--------------------------------------------------------------------- -/

/-- A blank DOM state (as on page load). -/
def emptyDom : Part000.Dom :=
  { error := none, resultsVisible := false, spinner := false,
    fr24Card := "", regCard := "", adsbCard := "", targetCard := "", activityCard := "",
    fr24Link := "", regLink := "", adsbLink := "", flightsRows := [],
    contactsAirline := "", domContacts := "", occContacts := "", otherContacts := "" }

/-- A small concrete primary payload whose telemetry carries a position
epoch, so that its rendering consults the clock. -/
def samplePrimary : Primary :=
  { tail_number := .str "N123AB", adsb := some { pos_epoch := some 1000 } }

/- ---------------------------------------------------------------------
   Claims
--------------------------------------------------------------------- -/

/-- Claim C1, counterexample.  The claim states that the field reduction
filling a display label returns the first candidate that is not null, not
undefined and not an empty string, keeping the numeric value 0 and the
boolean false.  On the code this is false: the reduction is the JS `||`
chain, which tests truthiness, so 0 and false collapse to the em-dash
sentinel: a candidate list whose first entry is the number 0 yields the
sentinel (or the next truthy candidate), and `kv` renders a 0-valued field
identically to an absent field. -/
theorem kv_zero_and_false_collapse_counterexample :
    orChain [JSVal.num 0] = JSVal.str "—" ∧
    orChain [JSVal.bool false] = JSVal.str "—" ∧
    orChain [JSVal.num 0, JSVal.str "42"] = JSVal.str "42" ∧
    Part000.kv "Seats" (JSVal.num 0) = Part000.kv "Seats" JSVal.undefined ∧
    Part000.kv "Engines" (JSVal.bool false) = Part000.kv "Engines" JSVal.undefined := by
  refine ⟨rfl, rfl, rfl, ?_, ?_⟩ <;> decide

/-- Claim C1, amended: the field reduction used to fill a display label
(the `v1 || v2 || ... || '—'` chain of `kv` and of the synonym-field
expressions) returns the first JS-truthy candidate — so null, undefined,
the empty string, the number 0 and the boolean false are all skipped and,
when no candidate is truthy, the em-dash sentinel results; in particular 0
and false are replaced by the sentinel, not kept. -/
theorem orChain_first_truthy :
    (∀ cs : List JSVal, orChain cs = (cs.find? jsTruthy).getD (.str "—")) ∧
    orChain [JSVal.num 0] = JSVal.str "—" ∧
    orChain [JSVal.bool false] = JSVal.str "—" ∧
    (∀ (label : String) (v : JSVal),
      Part000.kv label v =
        "<div class=\"mb-2\"><div class=\"label\">" ++ label ++
          "</div><div class=\"value\">" ++ jsDisplay (orChain [v]) ++ "</div></div>") := by
  refine ⟨?_, rfl, rfl, fun label v => rfl⟩
  intro cs
  induction cs with
  | nil => rfl
  | cons a t ih =>
    by_cases ha : jsTruthy a
    · simp [orChain, jsOr, ha, List.find?]
    · simp only [orChain, List.foldr] at ih ⊢
      simp [jsOr, ha, List.find?, ih]

set_option maxRecDepth 200000 in
/-- Claim C2, counterexample.  The claim states that any secondary-fetch
failure degrades the ContactsDirectory section to a "not available"
message.  For a transport error (and for a malformed payload) the code's
catch branch writes "Contact lookup failed.", which does not contain the
words "not available"; only the non-success-status branch writes the
"Contact lookup not available for this tail." message. -/
theorem contacts_transport_message_counterexample :
    (Part000.submit emptyDom "N123AB" 0 (.ok samplePrimary) .netError).dom.domContacts
      = Part000.kv "Contacts" (.str "Contact lookup failed.") ∧
    ¬ ("not available".data <:+:
        (Part000.submit emptyDom "N123AB" 0 (.ok samplePrimary) .netError).dom.domContacts.data) := by
  constructor
  · rfl
  · decide

/-- Claim C2, amended: for every query where the primary fetch succeeds and
the secondary (contacts) fetch fails with a network error, a non-success
status, or a malformed payload, the failure is caught independently: only
the ContactsDirectory section is degraded — to "Contact lookup not
available for this tail." on a non-success status and to "Contact lookup
failed." on a transport error or malformed payload — every other region is
rendered from the primary payload exactly as in the success case, no error
message is shown, and the pipeline still reaches the Ready (results-shown)
state. -/
theorem contacts_failure_isolated (prior : Part000.Dom) (v : String) (now : Int)
    (data : Primary) (sec : ContactsResult) (c0 : ContactsPayload) (msg : String)
    (hn : jsTrim v ≠ "") (hm : sec.degradedMsg = some msg) :
    (Part000.submit prior v now (.ok data) sec).dom =
      { (Part000.submit prior v now (.ok data) (.ok c0)).dom with
          contactsAirline := "",
          domContacts := Part000.kv "Contacts" (.str msg),
          occContacts := "", otherContacts := "" } ∧
    (Part000.submit prior v now (.ok data) sec).dom.resultsVisible = true ∧
    (Part000.submit prior v now (.ok data) sec).dom.error = none := by
  cases sec with
  | ok cd => simp [ContactsResult.degradedMsg] at hm
  | netError =>
    simp only [ContactsResult.degradedMsg, Option.some.injEq] at hm
    subst hm
    simp only [Part000.submit, if_neg hn]
    exact ⟨by trivial, by trivial, by trivial⟩
  | badStatus s =>
    simp only [ContactsResult.degradedMsg, Option.some.injEq] at hm
    subst hm
    simp only [Part000.submit, if_neg hn]
    exact ⟨by trivial, by trivial, by trivial⟩
  | parseError =>
    simp only [ContactsResult.degradedMsg, Option.some.injEq] at hm
    subst hm
    simp only [Part000.submit, if_neg hn]
    exact ⟨by trivial, by trivial, by trivial⟩

/-- Claim C2, witness: concrete transport-error run reaching Ready. -/
theorem contacts_failure_isolated_witness :
    jsTrim "N123AB" ≠ "" ∧
    ContactsResult.degradedMsg .netError = some "Contact lookup failed." ∧
    (Part000.submit emptyDom "N123AB" 0 (.ok samplePrimary) .netError).dom.resultsVisible = true :=
  ⟨by decide, rfl,
    (contacts_failure_isolated emptyDom "N123AB" 0 samplePrimary .netError {}
      "Contact lookup failed." (by decide) rfl).2.1⟩

/-- Claim C3: for every query where the primary fetch fails (non-success
status, transport error or parse error), the whole pipeline fails — the
DOM is exactly the reset state plus the generic error message (so no
section holds content and the results region stays hidden), the message is
the fixed digit-free string "Lookup failed. Try again in a moment or
verify the N-number." independent of the status, and the underlying cause
is written to the console log. -/
theorem primary_failure_terminal (prior : Part000.Dom) (v : String) (now : Int)
    (pri : PrimaryResult) (sec : ContactsResult) (c : Cause)
    (hn : jsTrim v ≠ "") (hc : pri.failCause = some c) :
    (Part000.submit prior v now pri sec).dom =
      { Part000.resetDom prior with error := some Part000.lookupFailedMsg, spinner := false } ∧
    (Part000.submit prior v now pri sec).dom.resultsVisible = false ∧
    (Part000.submit prior v now pri sec).log = [.primaryError c] ∧
    Part000.lookupFailedMsg = "Lookup failed. Try again in a moment or verify the N-number." ∧
    Part000.lookupFailedMsg.data.all (fun ch => !ch.isDigit) = true := by
  cases pri with
  | ok d => simp [PrimaryResult.failCause] at hc
  | netError =>
    simp only [PrimaryResult.failCause, Option.some.injEq] at hc
    subst hc
    simp only [Part000.submit, if_neg hn]
    exact ⟨by trivial, by trivial, by trivial, rfl, by decide⟩
  | badStatus s =>
    simp only [PrimaryResult.failCause, Option.some.injEq] at hc
    subst hc
    simp only [Part000.submit, if_neg hn]
    exact ⟨by trivial, by trivial, by trivial, rfl, by decide⟩
  | parseError =>
    simp only [PrimaryResult.failCause, Option.some.injEq] at hc
    subst hc
    simp only [Part000.submit, if_neg hn]
    exact ⟨by trivial, by trivial, by trivial, rfl, by decide⟩

/-- Claim C3, witness: a concrete 500 response, with its cause logged. -/
theorem primary_failure_terminal_witness :
    jsTrim "N1" ≠ "" ∧
    PrimaryResult.failCause (.badStatus 500) = some (.http 500) ∧
    (Part000.submit emptyDom "N1" 0 (.badStatus 500) (.ok {})).log
      = [.primaryError (.http 500)] :=
  ⟨by decide, rfl,
    (primary_failure_terminal emptyDom "N1" 0 (.badStatus 500) (.ok {}) (.http 500)
      (by decide) rfl).2.2.1⟩

/-- Claim C4: for every submitted query that is empty or whitespace-only
after trimming, no network call is issued and the DOM is exactly the reset
state plus the validation message "Please enter an N-number.". -/
theorem empty_query_no_fetch (prior : Part000.Dom) (v : String) (now : Int)
    (pri : PrimaryResult) (sec : ContactsResult) (h : jsTrim v = "") :
    (Part000.submit prior v now pri sec).calls = [] ∧
    (Part000.submit prior v now pri sec).dom =
      { Part000.resetDom prior with error := some "Please enter an N-number.", spinner := false } := by
  simp only [Part000.submit, if_pos h]
  exact ⟨by trivial, by trivial⟩

/-- Claim C4, witness: a whitespace-only query issues no call. -/
theorem empty_query_no_fetch_witness :
    jsTrim "   " = "" ∧
    (Part000.submit emptyDom "   " 0 (.ok samplePrimary) (.ok {})).calls = [] :=
  ⟨by decide,
    (empty_query_no_fetch emptyDom "   " 0 (.ok samplePrimary) (.ok {}) (by decide)).1⟩

set_option maxRecDepth 200000 in
/-- Claim C5, counterexample.  The claim states that running the lookup
twice for the same tail number with identical upstream payloads yields
byte-identical ViewModels.  The rendering consults `Date.now()` through
`formatAgo`, so two runs of the very same query and payloads at different
clock instants (here 59 s versus 60 s after the telemetry epoch) produce
different ADS-B sections. -/
theorem lookup_clock_dependent_counterexample :
    (Part000.submit emptyDom "N123AB" 1059000 (.ok samplePrimary) (.ok {})).dom
      ≠ (Part000.submit emptyDom "N123AB" 1060000 (.ok samplePrimary) (.ok {})).dom := by
  intro h
  exact absurd (congrArg Part000.Dom.adsbCard h) (by decide)

/-- Claim C5, amended: running the lookup twice for the same tail number
with identical upstream payloads at the same clock reading yields
byte-identical ViewModels — the second run, started from the DOM produced
by the first, reproduces it exactly (the output is a function of query,
clock and payloads only, not of prior state). -/
theorem lookup_idempotent_at_fixed_clock :
    ∀ (prior : Part000.Dom) (v : String) (now : Int)
      (pri : PrimaryResult) (sec : ContactsResult),
      (Part000.submit ((Part000.submit prior v now pri sec).dom) v now pri sec).dom
        = (Part000.submit prior v now pri sec).dom :=
  fun _ _ _ _ _ => rfl

/-- Claim C6: the time-relative formatter returns the sentinel for an
absent or zero epoch, and otherwise buckets the clamped elapsed time as
days if days ≥ 1, else hours if hours ≥ 1, else minutes if minutes ≥ 1,
else seconds (equality with the specification-side formatter that divides
directly by 86400 / 3600 / 60), appending "s" exactly when the bucketed
count exceeds 1. -/
theorem formatAgo_matches_spec :
    ∀ (now : Int) (epoch : Option Int),
      Part000.formatAgo now epoch = formatAgoSpec now epoch := by
  intro now epoch
  cases epoch with
  | none => rfl
  | some e =>
    by_cases he : e = 0
    · simp [Part000.formatAgo, formatAgoSpec, he]
    · simp only [Part000.formatAgo, formatAgoSpec, if_neg he]
      generalize (elapsedSecondsClamped now e).toNat = s
      have h1 : s / 60 / 60 = s / 3600 := by omega
      have h2 : s / 60 / 60 / 24 = s / 86400 := by omega
      rw [h2, h1]
      simp only [agoPhrase]

/-- Claim C7: the elapsed time is clamped to a minimum of 0 (no negative
duration), the duration denoted by the formatted output is monotone
non-decreasing in elapsed seconds, it strictly increases across each
bucket boundary, the formatter's output is exactly the phrase for its
bucket, and the boundary examples render as 59 s → "59 secs ago",
60 s → "1 min ago", 3600 s → "1 hr ago", 86400 s → "1 day ago". -/
theorem formatAgo_clamped_and_monotonic :
    (∀ now e : Int, 0 ≤ elapsedSecondsClamped now e) ∧
    (∀ s1 s2 : Nat, s1 ≤ s2 → agoRank s1 ≤ agoRank s2) ∧
    (∀ now e : Int, e ≠ 0 →
      Part000.formatAgo now (some e) =
        agoPhrase (agoBucket ((elapsedSecondsClamped now e).toNat)).2
          (AgoUnit.label (agoBucket ((elapsedSecondsClamped now e).toNat)).1)) ∧
    (agoRank 59 < agoRank 60 ∧ agoRank 3599 < agoRank 3600 ∧
      agoRank 86399 < agoRank 86400) ∧
    (Part000.formatAgo 1000000000 (some 999941) = "59 secs ago" ∧
      Part000.formatAgo 1000000000 (some 999940) = "1 min ago" ∧
      Part000.formatAgo 1000000000 (some 996400) = "1 hr ago" ∧
      Part000.formatAgo 1000000000 (some 913600) = "1 day ago") := by
  refine ⟨fun now e => le_max_left 0 _, ?_, ?_, by decide, by decide⟩
  · intro s1 s2 h
    unfold agoRank agoBucket
    by_cases h1d : s1/60/60/24 ≥ 1 <;> by_cases h1h : s1/60/60 ≥ 1 <;>
      by_cases h1m : s1/60 ≥ 1 <;> by_cases h2d : s2/60/60/24 ≥ 1 <;>
      by_cases h2h : s2/60/60 ≥ 1 <;> by_cases h2m : s2/60 ≥ 1 <;>
      simp [h1d, h1h, h1m, h2d, h2h, h2m, AgoUnit.seconds] <;> omega
  · intro now e he
    simp only [Part000.formatAgo, if_neg he]
    generalize (elapsedSecondsClamped now e).toNat = s
    unfold agoBucket
    by_cases hd : s / 60 / 60 / 24 ≥ 1
    · simp [hd, agoPhrase, AgoUnit.label]
    · by_cases hh : s / 60 / 60 ≥ 1
      · simp [hd, hh, agoPhrase, AgoUnit.label]
      · by_cases hm : s / 60 ≥ 1
        · simp [hd, hh, hm, agoPhrase, AgoUnit.label]
        · simp [hd, hh, hm, agoPhrase, AgoUnit.label]

/-- Claim C7, witness: the monotonicity and phrase components applied at
concrete inputs. -/
theorem formatAgo_clamped_and_monotonic_witness :
    ((59 : Nat) ≤ 60 ∧ agoRank 59 ≤ agoRank 60) ∧
    ((7 : Int) ≠ 0 ∧
      Part000.formatAgo 1000 (some 7) =
        agoPhrase (agoBucket ((elapsedSecondsClamped 1000 7).toNat)).2
          (AgoUnit.label (agoBucket ((elapsedSecondsClamped 1000 7).toNat)).1)) :=
  ⟨⟨by decide, formatAgo_clamped_and_monotonic.2.1 59 60 (by decide)⟩,
    ⟨by decide, formatAgo_clamped_and_monotonic.2.2.1 1000 7 (by decide)⟩⟩

/-- Claim C8: the Registry section's fractional-owner field is an
exhaustive three-way mapping — the boolean true maps to "YES", the boolean
false maps to "NO", and any other value (in particular an absent one) maps
to the sentinel; false is not collapsed into the absent case. -/
theorem fractional_owner_tristate :
    Part000.fracLabel (.bool true) = "YES" ∧
    Part000.fracLabel (.bool false) = "NO" ∧
    Part000.fracLabel .undefined = "—" ∧
    (∀ v : JSVal, v ≠ .bool true → v ≠ .bool false → Part000.fracLabel v = "—") ∧
    Part000.fracLabel (.bool false) ≠ Part000.fracLabel .undefined := by
  refine ⟨rfl, rfl, rfl, ?_, by decide⟩
  intro v h1 h2
  simp [Part000.fracLabel, h1, h2]

/-- Claim C8, witness: the exhaustive-mapping component applied at the JS
null value. -/
theorem fractional_owner_tristate_witness :
    JSVal.null ≠ JSVal.bool true ∧ JSVal.null ≠ JSVal.bool false ∧
    Part000.fracLabel JSVal.null = "—" :=
  ⟨by decide, by decide,
    fractional_owner_tristate.2.2.2.1 JSVal.null (by decide) (by decide)⟩

/-- Claim C9: the submit handler resets every section output (cards, links,
flights table, contacts blocks) and the error region before validation
runs — the reset state is blank regardless of the prior state — and
consequently the whole submission outcome is independent of whatever was
on screen before. -/
theorem submit_resets_before_validation :
    (∀ prior : Part000.Dom,
      (Part000.resetDom prior).error = none ∧
      (Part000.resetDom prior).resultsVisible = false ∧
      (Part000.resetDom prior).fr24Card = "" ∧
      (Part000.resetDom prior).regCard = "" ∧
      (Part000.resetDom prior).adsbCard = "" ∧
      (Part000.resetDom prior).targetCard = "" ∧
      (Part000.resetDom prior).activityCard = "" ∧
      (Part000.resetDom prior).fr24Link = "" ∧
      (Part000.resetDom prior).regLink = "" ∧
      (Part000.resetDom prior).adsbLink = "" ∧
      (Part000.resetDom prior).flightsRows = [] ∧
      (Part000.resetDom prior).contactsAirline = "" ∧
      (Part000.resetDom prior).domContacts = "" ∧
      (Part000.resetDom prior).occContacts = "" ∧
      (Part000.resetDom prior).otherContacts = "") ∧
    (∀ (p1 p2 : Part000.Dom) (v : String) (now : Int)
      (pri : PrimaryResult) (sec : ContactsResult),
      Part000.submit p1 v now pri sec = Part000.submit p2 v now pri sec) :=
  ⟨fun _ => ⟨rfl, rfl, rfl, rfl, rfl, rfl, rfl, rfl, rfl, rfl, rfl, rfl, rfl, rfl, rfl⟩,
    fun _ _ _ _ _ _ => rfl⟩

/-- Claim C10: for every primary payload and fixed clock instant, the two
source variants produce identical rendered output for the FlightMeta
(FR24), Registry, Telemetry (ADS-B), Targeting and Activity sections, the
source links and the flight-history rows; they differ in the request base
URL (part_000 prefixes the absolute API origin onto the same path) —
and part_000 additionally performs the contacts lookup, which has no
counterpart in real_app.js. -/
theorem variants_render_identically :
    (∀ d : Primary, Part000.renderFr24Card d = RealApp.renderFr24Card d) ∧
    (∀ d : Primary, Part000.renderFr24Link d = RealApp.renderFr24Link d) ∧
    (∀ d : Primary, Part000.renderRegCard d = RealApp.renderRegCard d) ∧
    (∀ d : Primary, Part000.renderRegLink d = RealApp.renderRegLink d) ∧
    (∀ (now : Int) (d : Primary),
      Part000.renderAdsbCard now d = RealApp.renderAdsbCard now d) ∧
    (∀ d : Primary, Part000.renderAdsbLink d = RealApp.renderAdsbLink d) ∧
    (∀ d : Primary, Part000.renderTargetCard d = RealApp.renderTargetCard d) ∧
    (∀ (now : Int) (d : Primary),
      Part000.renderActivityCard now d = RealApp.renderActivityCard now d) ∧
    (∀ f : FlightF, Part000.renderFlightRow f = RealApp.renderFlightRow f) ∧
    (∀ (now : Int) (ep : Option Int),
      Part000.formatAgo now ep = RealApp.formatAgo now ep) ∧
    (∀ n : String, Part000.aircraftUrl n = Part000.API_BASE ++ RealApp.aircraftUrl n) := by
  refine ⟨fun _ => rfl, fun _ => rfl, fun _ => rfl, fun _ => rfl, fun _ _ => rfl,
    fun _ => rfl, fun _ => rfl, fun _ _ => rfl, fun _ => rfl, fun _ _ => rfl, ?_⟩
  intro n
  simp [Part000.aircraftUrl, RealApp.aircraftUrl, String.append_assoc]
